import Mathlib

/-!
Shallow embedding of the consensus-interface crate
(crates/consensus/consensus/src/lib.rs) and of the RPC node-core forwarding
impl (crates/rpc/rpc-eth-api/src/node.rs), with theorems settling the
frozen claims about them.

Machine integers (u64, usize) are modelled as Nat: none of the embedded
code performs arithmetic that can overflow a u64 on the inputs considered,
and the embedded operations only move these values around or compare them.
External collaborator types (alloy Header, B256, GotExpected, the
transaction-validity error) are modelled as minimal Lean types carrying the
fields the embedded code reads.
-/

/-- Modelled from the spec (section 3): a 256-bit hash value from the
primitives collaborator; the embedded code only stores and compares such
values, so it is modelled as Nat. -/
abbrev B256 : Type := Nat

/-- Modelled from the spec: a block hash (alias of the hash type). -/
abbrev BlockHash : Type := B256

/-- Modelled from the spec: a block number (u64). -/
abbrev BlockNumber : Type := Nat

/-- Modelled from the spec (section 3): a logs-bloom filter from the
primitives collaborator; only stored and compared here, so modelled as Nat. -/
abbrev Bloom : Type := Nat

/-- Modelled from the spec (section 3): a paired got-vs-expected comparison
carried inside diagnostic error values. -/
structure GotExpected (α : Type) where
  got : α
  expected : α
deriving DecidableEq, Repr

/-- Modelled from the spec (section 3): the heap-boxed form of a
got-vs-expected pair; boxing is a representation detail with no behavioural
content, so it is identified with the pair itself. -/
abbrev GotExpectedBoxed (α : Type) : Type := GotExpected α

/-- Modelled from the spec (section 6): a transaction-validity error kind
produced by the transaction-validation collaborator. Its variants are
opaque to this core, which only embeds the value verbatim, so it is
modelled as an opaque code. -/
structure InvalidTransactionError where
  code : Nat
deriving DecidableEq, Repr

/-- Modelled from the spec (section 3): block metadata, restricted to the
fields the embedded checks read (the remaining alloy header fields are
never inspected by the code embedded here). -/
structure Header where
  parent_hash : B256
  number : BlockNumber
  timestamp : Nat
  gas_limit : Nat
  gas_used : Nat
deriving DecidableEq, Repr

/-- Modelled from the spec (section 3): a header bound to a precomputed,
trusted content hash, established at construction and never recomputed by
consumers. -/
structure SealedHeader (H : Type) where
  header : H
  hash : B256
deriving DecidableEq, Repr

/-- The closed consensus-error enumeration, translated variant by variant
from ConsensusError in crates/consensus/consensus/src/lib.rs. -/
inductive ConsensusError where
  | HeaderGasUsedExceedsGasLimit (gas_used : Nat) (gas_limit : Nat)
  | HeaderGasLimitExceedsMax (gas_limit : Nat)
  | BlockGasUsed (gas : GotExpected Nat) (gas_spent_by_tx : List (Nat × Nat))
  | BodyOmmersHashDiff (d : GotExpectedBoxed B256)
  | BodyStateRootDiff (d : GotExpectedBoxed B256)
  | BodyTransactionRootDiff (d : GotExpectedBoxed B256)
  | BodyReceiptRootDiff (d : GotExpectedBoxed B256)
  | BodyBloomLogDiff (d : GotExpectedBoxed Bloom)
  | BodyWithdrawalsRootDiff (d : GotExpectedBoxed B256)
  | BodyRequestsHashDiff (d : GotExpectedBoxed B256)
  | BlockKnown (hash : BlockHash) (number : BlockNumber)
  | ParentUnknown (hash : BlockHash)
  | ParentBlockNumberMismatch (parent_block_number : BlockNumber) (block_number : BlockNumber)
  | ParentHashMismatch (d : GotExpectedBoxed B256)
  | TimestampIsInFuture (timestamp : Nat) (present_timestamp : Nat)
  | BaseFeeMissing
  | TransactionSignerRecoveryError
  | ExtraDataExceedsMax (len : Nat)
  | TheMergeDifficultyIsNotZero
  | TheMergeNonceIsNotZero
  | TheMergeOmmerRootIsNotEmpty
  | WithdrawalsRootMissing
  | RequestsHashMissing
  | WithdrawalsRootUnexpected
  | RequestsHashUnexpected
  | BodyWithdrawalsMissing
  | BodyRequestsMissing
  | BlobGasUsedMissing
  | BlobGasUsedUnexpected
  | ExcessBlobGasMissing
  | ExcessBlobGasUnexpected
  | ParentBeaconBlockRootMissing
  | ParentBeaconBlockRootUnexpected
  | BlobGasUsedExceedsMaxBlobGasPerBlock (blob_gas_used : Nat) (max_blob_gas_per_block : Nat)
  | BlobGasUsedNotMultipleOfBlobGasPerBlob (blob_gas_used : Nat) (blob_gas_per_blob : Nat)
  | BlobGasUsedDiff (d : GotExpected Nat)
  | InvalidTransaction (e : InvalidTransactionError)
  | BaseFeeDiff (d : GotExpected Nat)
  | ExcessBlobGasDiff (diff : GotExpected Nat) (parent_excess_blob_gas : Nat)
      (parent_blob_gas_used : Nat)
  | GasLimitInvalidIncrease (parent_gas_limit : Nat) (child_gas_limit : Nat)
  | GasLimitInvalidMinimum (child_gas_limit : Nat)
  | GasLimitInvalidBlockMaximum (block_gas_limit : Nat)
  | GasLimitInvalidDecrease (parent_gas_limit : Nat) (child_gas_limit : Nat)
  | TimestampIsInPast (parent_timestamp : Nat) (timestamp : Nat)
  | Other (s : String)
deriving DecidableEq, Repr

/-- ConsensusError.is_state_root_error, translated from
crates/consensus/consensus/src/lib.rs lines 403-408: matches! on the
BodyStateRootDiff variant. -/
def ConsensusError.is_state_root_error : ConsensusError → Bool
  | .BodyStateRootDiff _ => true
  | _ => false

/-- The From impl of InvalidTransactionError for ConsensusError, translated
from crates/consensus/consensus/src/lib.rs lines 410-414 (named of instead
of from, which Lean reserves). -/
def ConsensusError.ofInvalidTransactionError (value : InvalidTransactionError) :
    ConsensusError :=
  ConsensusError.InvalidTransaction value

/-- HeaderConsensusError, translated from
crates/consensus/consensus/src/lib.rs line 419: a ConsensusError paired
with the SealedHeader it relates to. -/
structure HeaderConsensusError (H : Type) where
  error : ConsensusError
  header : SealedHeader H
deriving DecidableEq, Repr

/-- The HeaderValidator trait of crates/consensus/consensus/src/lib.rs,
modelled as a record of its two required operations; the provided method
validate_header_range is defined below as a function of this record. -/
structure HeaderValidator (H : Type) where
  validate_header : SealedHeader H → Except ConsensusError Unit
  validate_header_against_parent :
    SealedHeader H → SealedHeader H → Except ConsensusError Unit

/-- The for-loop of the default validate_header_range body (lines 115-120):
walks the remaining headers, validating each standalone and then against
the running parent, stopping at the first failure. -/
def HeaderValidator.validateRangeLoop (v : HeaderValidator H)
    (parent : SealedHeader H) :
    List (SealedHeader H) → Except (HeaderConsensusError H) Unit
  | [] => Except.ok ()
  | child :: rest =>
    match v.validate_header child with
    | Except.error e => Except.error ⟨e, child⟩
    | Except.ok () =>
      match v.validate_header_against_parent child parent with
      | Except.error e => Except.error ⟨e, child⟩
      | Except.ok () => v.validateRangeLoop child rest

/-- The default validate_header_range algorithm, translated from
crates/consensus/consensus/src/lib.rs lines 104-123: split off the first
header, validate it standalone, then run the loop over the rest with the
first header as the initial parent; the empty slice returns Ok. -/
def HeaderValidator.validate_header_range (v : HeaderValidator H) :
    List (SealedHeader H) → Except (HeaderConsensusError H) Unit
  | [] => Except.ok ()
  | initialHeader :: remaining_headers =>
    match v.validate_header initialHeader with
    | Except.error e => Except.error ⟨e, initialHeader⟩
    | Except.ok () => v.validateRangeLoop initialHeader remaining_headers

/-- A call the default range algorithm makes into the validator: either a
standalone validate_header call or a validate_header_against_parent call. -/
inductive HVCall (H : Type) where
  | standalone (h : SealedHeader H)
  | againstParent (child : SealedHeader H) (parent : SealedHeader H)
deriving DecidableEq, Repr

/-- The header a call checks: the offending header attached to the error
when that call fails. -/
def HVCall.subject : HVCall H → SealedHeader H
  | .standalone h => h
  | .againstParent child _ => child

/-- The validator operation a call stands for, evaluated. -/
def HeaderValidator.callOutcome (v : HeaderValidator H) :
    HVCall H → Except ConsensusError Unit
  | .standalone h => v.validate_header h
  | .againstParent child parent => v.validate_header_against_parent child parent

/-- Instrumented form of the loop of validate_header_range: same control
flow as HeaderValidator.validateRangeLoop, additionally recording, in
order, every call made into the validator. -/
def HeaderValidator.validateRangeLoopT (v : HeaderValidator H)
    (parent : SealedHeader H) :
    List (SealedHeader H) →
      Except (HeaderConsensusError H) Unit × List (HVCall H)
  | [] => (Except.ok (), [])
  | child :: rest =>
    match v.validate_header child with
    | Except.error e => (Except.error ⟨e, child⟩, [HVCall.standalone child])
    | Except.ok () =>
      match v.validate_header_against_parent child parent with
      | Except.error e =>
        (Except.error ⟨e, child⟩,
          [HVCall.standalone child, HVCall.againstParent child parent])
      | Except.ok () =>
        let r := v.validateRangeLoopT child rest
        (r.1, HVCall.standalone child :: HVCall.againstParent child parent :: r.2)

/-- Instrumented form of validate_header_range: same control flow,
additionally recording, in order, every call made into the validator. -/
def HeaderValidator.validate_header_rangeT (v : HeaderValidator H) :
    List (SealedHeader H) →
      Except (HeaderConsensusError H) Unit × List (HVCall H)
  | [] => (Except.ok (), [])
  | initialHeader :: remaining_headers =>
    match v.validate_header initialHeader with
    | Except.error e => (Except.error ⟨e, initialHeader⟩, [HVCall.standalone initialHeader])
    | Except.ok () =>
      let r := v.validateRangeLoopT initialHeader remaining_headers
      (r.1, HVCall.standalone initialHeader :: r.2)

/-- The loop part of the declarative check plan: for each child, a
standalone check then a parent-relative check against its predecessor in
the sequence. -/
def planLoop (parent : SealedHeader H) : List (SealedHeader H) → List (HVCall H)
  | [] => []
  | child :: rest =>
    HVCall.standalone child :: HVCall.againstParent child parent :: planLoop child rest

/-- The declarative check plan of the range algorithm: the full ordered
list of checks it would perform were no check to fail. -/
def rangeCallPlan : List (SealedHeader H) → List (HVCall H)
  | [] => []
  | h0 :: rest => HVCall.standalone h0 :: planLoop h0 rest

/-- First-failure semantics over a check plan: the first check whose
outcome is an error determines the result, wrapped with the subject header
of that failing check; Ok when every check passes. -/
def HeaderValidator.firstFailure (v : HeaderValidator H) :
    List (HVCall H) → Except (HeaderConsensusError H) Unit
  | [] => Except.ok ()
  | c :: rest =>
    match v.callOutcome c with
    | Except.error e => Except.error ⟨e, c.subject⟩
    | Except.ok () => v.firstFailure rest

/-- The prefix of a check plan actually executed under first-failure
semantics: every check up to and including the first failing one. -/
def HeaderValidator.executedCalls (v : HeaderValidator H) :
    List (HVCall H) → List (HVCall H)
  | [] => []
  | c :: rest =>
    match v.callOutcome c with
    | Except.error _ => [c]
    | Except.ok () => c :: v.executedCalls rest

/-- Modelled from the spec (section 4.1): the parent-relative gas-limit
check of validate_header_against_parent, whose implementation lives outside
the given sources — gas-limit change bounded to plus or minus
parent_gas_limit / 1024 per step, violations reported as
GasLimitInvalidIncrease and GasLimitInvalidDecrease. -/
def validate_against_parent_gas_limit (parent child : Header) :
    Except ConsensusError Unit :=
  if child.gas_limit > parent.gas_limit then
    if child.gas_limit - parent.gas_limit > parent.gas_limit / 1024 then
      Except.error
        (ConsensusError.GasLimitInvalidIncrease parent.gas_limit child.gas_limit)
    else
      Except.ok ()
  else
    if parent.gas_limit - child.gas_limit > parent.gas_limit / 1024 then
      Except.error
        (ConsensusError.GasLimitInvalidDecrease parent.gas_limit child.gas_limit)
    else
      Except.ok ()

/-- The Consensus trait of crates/consensus/consensus/src/lib.rs (lines
49-72): extends HeaderValidator with body-versus-header consistency and
pre-execution holistic block validity. B models the block body type, Blk
the sealed-block type and E the associated Error type. -/
structure Consensus (H B Blk E : Type) extends HeaderValidator H where
  validate_body_against_header : B → SealedHeader H → Except E Unit
  validate_block_pre_execution : Blk → Except E Unit

/-- The FullConsensus trait of crates/consensus/consensus/src/lib.rs (lines
32-47): extends Consensus with post-execution validity. R models the
recovered-block type and Res the block-execution-result type. -/
structure FullConsensus (H B Blk E R Res : Type) extends Consensus H B Blk E where
  validate_block_post_execution : R → Res → Except ConsensusError Unit

/-- The auto_impl forwarding of HeaderValidator for a shared reference
&V (line 75): every method calls the same method on the referenced
validator. -/
def HeaderValidator.refImpl (v : HeaderValidator H) : HeaderValidator H where
  validate_header := fun h => v.validate_header h
  validate_header_against_parent := fun h p => v.validate_header_against_parent h p

/-- The auto_impl forwarding of HeaderValidator for a shared handle
Arc of V (line 75): every method calls the same method on the held
validator. -/
def HeaderValidator.arcImpl (v : HeaderValidator H) : HeaderValidator H where
  validate_header := fun h => v.validate_header h
  validate_header_against_parent := fun h p => v.validate_header_against_parent h p

/-- The auto_impl forwarding of Consensus for a shared reference &V
(line 50). -/
def Consensus.refImpl (c : Consensus H B Blk E) : Consensus H B Blk E where
  validate_header := fun h => c.validate_header h
  validate_header_against_parent := fun h p => c.validate_header_against_parent h p
  validate_body_against_header := fun b h => c.validate_body_against_header b h
  validate_block_pre_execution := fun blk => c.validate_block_pre_execution blk

/-- The auto_impl forwarding of Consensus for a shared handle Arc of V
(line 50). -/
def Consensus.arcImpl (c : Consensus H B Blk E) : Consensus H B Blk E where
  validate_header := fun h => c.validate_header h
  validate_header_against_parent := fun h p => c.validate_header_against_parent h p
  validate_body_against_header := fun b h => c.validate_body_against_header b h
  validate_block_pre_execution := fun blk => c.validate_block_pre_execution blk

/-- The auto_impl forwarding of FullConsensus for a shared reference &V
(line 34). -/
def FullConsensus.refImpl (fc : FullConsensus H B Blk E R Res) :
    FullConsensus H B Blk E R Res where
  validate_header := fun h => fc.validate_header h
  validate_header_against_parent := fun h p => fc.validate_header_against_parent h p
  validate_body_against_header := fun b h => fc.validate_body_against_header b h
  validate_block_pre_execution := fun blk => fc.validate_block_pre_execution blk
  validate_block_post_execution := fun r res => fc.validate_block_post_execution r res

/-- The auto_impl forwarding of FullConsensus for a shared handle Arc of V
(line 34). -/
def FullConsensus.arcImpl (fc : FullConsensus H B Blk E R Res) :
    FullConsensus H B Blk E R Res where
  validate_header := fun h => fc.validate_header h
  validate_header_against_parent := fun h p => fc.validate_header_against_parent h p
  validate_body_against_header := fun b h => fc.validate_body_against_header b h
  validate_block_pre_execution := fun blk => fc.validate_block_pre_execution blk
  validate_block_post_execution := fun r res => fc.validate_block_post_execution r res

/-- Modelled from the spec (section 1, out-of-scope collaborators): the
FullNodeComponents interface of the node builder, restricted to the five
accessors the blanket RpcNodeCore impl reads; each component is modelled as
a value of an abstract type. -/
structure FullNodeComponents (Pool Evm Net Prov PB : Type) where
  pool : Pool
  evm_config : Evm
  network : Net
  provider : Prov
  payload_builder_handle : PB

/-- The RpcNodeCore trait of crates/rpc/rpc-eth-api/src/node.rs (lines
17-46), modelled as a record of its five accessors. -/
structure RpcNodeCore (Pool Evm Net Prov PB : Type) where
  pool : Pool
  evm_config : Evm
  network : Net
  provider : Prov
  payload_builder : PB

/-- The blanket impl of RpcNodeCore for every T implementing
FullNodeComponents, translated from crates/rpc/rpc-eth-api/src/node.rs
lines 48-83: pool, evm_config, network and provider forward to the
identically named FullNodeComponents accessors, payload_builder forwards to
payload_builder_handle. -/
def RpcNodeCore.ofFullNodeComponents (t : FullNodeComponents Pool Evm Net Prov PB) :
    RpcNodeCore Pool Evm Net Prov PB where
  pool := t.pool
  evm_config := t.evm_config
  network := t.network
  payload_builder := t.payload_builder_handle
  provider := t.provider

/-- The last element of a list, or the given default when the list is
empty: the value held by the mutable parent variable of the range loop
after consuming the list. -/
def lastOr (p : α) : List α → α
  | [] => p
  | x :: xs => lastOr x xs

/-- A concrete validator whose checks always pass, used to evaluate the
range algorithm on concrete inputs. -/
def okValidator : HeaderValidator Header where
  validate_header := fun _ => Except.ok ()
  validate_header_against_parent := fun _ _ => Except.ok ()

/-- A concrete validator whose standalone check rejects exactly the headers
of block number 5 and whose parent-relative check always passes, used to
evaluate the range algorithm at a failing input. -/
def failAtFiveValidator : HeaderValidator Header where
  validate_header := fun h =>
    if h.header.number = 5 then Except.error ConsensusError.BaseFeeMissing
    else Except.ok ()
  validate_header_against_parent := fun _ _ => Except.ok ()

/-- A concrete sealed header of block number 0: the genesis header. -/
def genesisHeader : SealedHeader Header :=
  ⟨⟨0, 0, 0, 30000000, 0⟩, 17⟩

/-- A concrete sealed header of block number 1. -/
def headerOne : SealedHeader Header :=
  ⟨⟨17, 1, 12, 30000000, 0⟩, 23⟩

/-- A concrete sealed header of block number 5. -/
def headerFive : SealedHeader Header :=
  ⟨⟨23, 5, 60, 30000000, 0⟩, 31⟩

/-- A concrete header of gas limit 2048, the parent of the gas-limit
boundary evaluation. -/
def gasParentHeader : Header :=
  ⟨0, 9, 100, 2048, 0⟩

/-- A concrete header whose gas limit 2050 sits exactly at the allowed
increase boundary above gasParentHeader. -/
def gasChildAtIncrease : Header :=
  ⟨0, 10, 112, 2050, 0⟩

/-- A concrete header whose gas limit 2051 sits one above the allowed
increase boundary above gasParentHeader. -/
def gasChildAboveIncrease : Header :=
  ⟨0, 10, 112, 2051, 0⟩

/-- A concrete header whose gas limit 2046 sits exactly at the allowed
decrease boundary below gasParentHeader. -/
def gasChildAtDecrease : Header :=
  ⟨0, 10, 112, 2046, 0⟩

/-- A concrete header whose gas limit 2045 sits one below the allowed
decrease boundary below gasParentHeader. -/
def gasChildBelowDecrease : Header :=
  ⟨0, 10, 112, 2045, 0⟩

/-! ## Helper lemmas about the range algorithm -/

/-- The instrumented loop computes the same result as the source loop. -/
theorem validateRangeLoopT_fst (v : HeaderValidator H) (p : SealedHeader H)
    (cs : List (SealedHeader H)) :
    (v.validateRangeLoopT p cs).1 = v.validateRangeLoop p cs := by
  induction cs generalizing p with
  | nil => rfl
  | cons child rest ih =>
    cases hvh : v.validate_header child with
    | error e =>
      simp [HeaderValidator.validateRangeLoopT, HeaderValidator.validateRangeLoop, hvh]
    | ok u =>
      cases u
      cases hvp : v.validate_header_against_parent child p with
      | error e =>
        simp [HeaderValidator.validateRangeLoopT, HeaderValidator.validateRangeLoop,
          hvh, hvp]
      | ok u2 =>
        cases u2
        simp [HeaderValidator.validateRangeLoopT, HeaderValidator.validateRangeLoop,
          hvh, hvp, ih]

/-- The instrumented range algorithm computes the same result as the source
algorithm. -/
theorem validate_header_rangeT_fst (v : HeaderValidator H)
    (hs : List (SealedHeader H)) :
    (v.validate_header_rangeT hs).1 = v.validate_header_range hs := by
  cases hs with
  | nil => rfl
  | cons h0 rest =>
    cases hvh : v.validate_header h0 with
    | error e =>
      simp [HeaderValidator.validate_header_rangeT, HeaderValidator.validate_header_range, hvh]
    | ok u =>
      cases u
      simp [HeaderValidator.validate_header_rangeT, HeaderValidator.validate_header_range,
        hvh, validateRangeLoopT_fst]

/-- The instrumented loop equals first-failure evaluation of the loop part
of the declarative check plan, in result and in executed calls. -/
theorem validateRangeLoopT_plan (v : HeaderValidator H) (p : SealedHeader H)
    (cs : List (SealedHeader H)) :
    v.validateRangeLoopT p cs =
      (v.firstFailure (planLoop p cs), v.executedCalls (planLoop p cs)) := by
  induction cs generalizing p with
  | nil => rfl
  | cons child rest ih =>
    cases hvh : v.validate_header child with
    | error e =>
      simp [HeaderValidator.validateRangeLoopT, planLoop, HeaderValidator.firstFailure,
        HeaderValidator.executedCalls, HeaderValidator.callOutcome, HVCall.subject, hvh]
    | ok u =>
      cases u
      cases hvp : v.validate_header_against_parent child p with
      | error e =>
        simp [HeaderValidator.validateRangeLoopT, planLoop, HeaderValidator.firstFailure,
          HeaderValidator.executedCalls, HeaderValidator.callOutcome, HVCall.subject,
          hvh, hvp]
      | ok u2 =>
        cases u2
        simp [HeaderValidator.validateRangeLoopT, planLoop, HeaderValidator.firstFailure,
          HeaderValidator.executedCalls, HeaderValidator.callOutcome, HVCall.subject,
          hvh, hvp, ih]

/-- The instrumented range algorithm equals first-failure evaluation of the
declarative check plan, in result and in executed calls. -/
theorem validate_header_rangeT_plan (v : HeaderValidator H)
    (hs : List (SealedHeader H)) :
    v.validate_header_rangeT hs =
      (v.firstFailure (rangeCallPlan hs), v.executedCalls (rangeCallPlan hs)) := by
  cases hs with
  | nil => rfl
  | cons h0 rest =>
    cases hvh : v.validate_header h0 with
    | error e =>
      simp [HeaderValidator.validate_header_rangeT, rangeCallPlan,
        HeaderValidator.firstFailure, HeaderValidator.executedCalls,
        HeaderValidator.callOutcome, HVCall.subject, hvh]
    | ok u =>
      cases u
      simp [HeaderValidator.validate_header_rangeT, rangeCallPlan,
        HeaderValidator.firstFailure, HeaderValidator.executedCalls,
        HeaderValidator.callOutcome, HVCall.subject, hvh, validateRangeLoopT_plan]

/-- First-failure evaluation succeeds exactly when every call of the plan
succeeds. -/
theorem firstFailure_ok_iff (v : HeaderValidator H) (plan : List (HVCall H)) :
    v.firstFailure plan = Except.ok () ↔
      ∀ c ∈ plan, v.callOutcome c = Except.ok () := by
  induction plan with
  | nil => simp [HeaderValidator.firstFailure]
  | cons c rest ih =>
    cases hc : v.callOutcome c with
    | error e => simp [HeaderValidator.firstFailure, hc]
    | ok u =>
      cases u
      simp [HeaderValidator.firstFailure, hc, ih]

/-- Splitting the instrumented loop at a point where every earlier check
passed: the loop continues from the last header of the first part. -/
theorem validateRangeLoopT_append (v : HeaderValidator H) (p : SealedHeader H)
    (xs ys : List (SealedHeader H))
    (h : (v.validateRangeLoopT p xs).1 = Except.ok ()) :
    v.validateRangeLoopT p (xs ++ ys) =
      ((v.validateRangeLoopT (lastOr p xs) ys).1,
        (v.validateRangeLoopT p xs).2 ++ (v.validateRangeLoopT (lastOr p xs) ys).2) := by
  induction xs generalizing p with
  | nil => simp [HeaderValidator.validateRangeLoopT, lastOr]
  | cons x xs ih =>
    cases hvh : v.validate_header x with
    | error e =>
      exfalso
      simp [HeaderValidator.validateRangeLoopT, hvh] at h
    | ok u =>
      cases u
      cases hvp : v.validate_header_against_parent x p with
      | error e =>
        exfalso
        simp [HeaderValidator.validateRangeLoopT, hvh, hvp] at h
      | ok u2 =>
        cases u2
        have h2 : (v.validateRangeLoopT x xs).1 = Except.ok () := by
          simpa [HeaderValidator.validateRangeLoopT, hvh, hvp] using h
        simp [HeaderValidator.validateRangeLoopT, hvh, hvp, lastOr, ih x h2]

/-! ## Claim theorems -/

/-- Claim C1: for every non-empty sequence of sealed headers, the default
validate_header_range algorithm performs, in order, the standalone check of
the first header and then, for each subsequent header, its standalone check
followed by its check against the immediately preceding header of the
sequence; it stops at the first failing check, returning a
HeaderConsensusError pairing the error with the header that failed, and
returns success exactly when every such check succeeds. -/
theorem c1_validate_header_range_first_failure (v : HeaderValidator H)
    (h0 : SealedHeader H) (rest : List (SealedHeader H)) :
    v.validate_header_rangeT (h0 :: rest) =
      (v.firstFailure (rangeCallPlan (h0 :: rest)),
        v.executedCalls (rangeCallPlan (h0 :: rest))) ∧
    v.validate_header_range (h0 :: rest) =
      (v.validate_header_rangeT (h0 :: rest)).1 ∧
    (v.validate_header_range (h0 :: rest) = Except.ok () ↔
      ∀ c ∈ rangeCallPlan (h0 :: rest), v.callOutcome c = Except.ok ()) := by
  refine ⟨validate_header_rangeT_plan v _, (validate_header_rangeT_fst v _).symm, ?_⟩
  rw [← validate_header_rangeT_fst, validate_header_rangeT_plan]
  simpa using firstFailure_ok_iff v (rangeCallPlan (h0 :: rest))

/-- Claim C2: is_state_root_error returns true exactly on the
BodyStateRootDiff variant of ConsensusError and false on every other
variant. -/
theorem c2_is_state_root_error_iff (e : ConsensusError) :
    e.is_state_root_error = true ↔
      ∃ d, e = ConsensusError.BodyStateRootDiff d := by
  cases e <;> simp [ConsensusError.is_state_root_error]

/-- Claim C3: validate_header_range on the empty sequence returns success
and makes no call into the validator. -/
theorem c3_validate_header_range_nil (v : HeaderValidator H) :
    v.validate_header_range [] = Except.ok () ∧
    v.validate_header_rangeT [] = (Except.ok (), ([] : List (HVCall H))) :=
  ⟨rfl, rfl⟩

/-- Claim C4: validate_header_range on a single-element sequence makes
exactly one call, the standalone validate_header check of that element, and
its result is that check, wrapped with the element on failure. -/
theorem c4_validate_header_range_singleton (v : HeaderValidator H)
    (h0 : SealedHeader H) :
    v.validate_header_rangeT [h0] =
      (Except.mapError (fun e => (⟨e, h0⟩ : HeaderConsensusError H))
        (v.validate_header h0), [HVCall.standalone h0]) ∧
    v.validate_header_range [h0] =
      Except.mapError (fun e => (⟨e, h0⟩ : HeaderConsensusError H))
        (v.validate_header h0) := by
  cases hvh : v.validate_header h0 with
  | error e =>
    simp [HeaderValidator.validate_header_rangeT, HeaderValidator.validate_header_range,
      HeaderValidator.validateRangeLoopT, HeaderValidator.validateRangeLoop,
      Except.mapError, hvh]
  | ok u =>
    cases u
    simp [HeaderValidator.validate_header_rangeT, HeaderValidator.validate_header_range,
      HeaderValidator.validateRangeLoopT, HeaderValidator.validateRangeLoop,
      Except.mapError, hvh]

/-- Claim C5: for a parent of gas limit G at least 1024, the parent-relative
gas-limit check accepts a child of gas limit G + G / 1024 and rejects a
child of gas limit G + G / 1024 + 1 with GasLimitInvalidIncrease, and
symmetrically accepts a child of gas limit G - G / 1024 and rejects a child
of gas limit G - (G / 1024 + 1) with GasLimitInvalidDecrease. -/
theorem c5_gas_limit_boundary (parent cInc cIncBad cDec cDecBad : Header)
    (hG : 1024 ≤ parent.gas_limit)
    (h1 : cInc.gas_limit = parent.gas_limit + parent.gas_limit / 1024)
    (h2 : cIncBad.gas_limit = parent.gas_limit + parent.gas_limit / 1024 + 1)
    (h3 : cDec.gas_limit = parent.gas_limit - parent.gas_limit / 1024)
    (h4 : cDecBad.gas_limit = parent.gas_limit - (parent.gas_limit / 1024 + 1)) :
    validate_against_parent_gas_limit parent cInc = Except.ok () ∧
    validate_against_parent_gas_limit parent cIncBad =
      Except.error (ConsensusError.GasLimitInvalidIncrease parent.gas_limit
        cIncBad.gas_limit) ∧
    validate_against_parent_gas_limit parent cDec = Except.ok () ∧
    validate_against_parent_gas_limit parent cDecBad =
      Except.error (ConsensusError.GasLimitInvalidDecrease parent.gas_limit
        cDecBad.gas_limit) := by
  refine ⟨?_, ?_, ?_, ?_⟩ <;>
    simp only [validate_against_parent_gas_limit, h1, h2, h3, h4] <;>
    split_ifs <;> first | rfl | omega

/-- Claim C5 witness: the boundary evaluated at a concrete parent of gas
limit 2048 and children of gas limits 2050, 2051, 2046 and 2045. -/
theorem c5_gas_limit_boundary_witness :
    validate_against_parent_gas_limit gasParentHeader gasChildAtIncrease =
      Except.ok () ∧
    validate_against_parent_gas_limit gasParentHeader gasChildAboveIncrease =
      Except.error (ConsensusError.GasLimitInvalidIncrease gasParentHeader.gas_limit
        gasChildAboveIncrease.gas_limit) ∧
    validate_against_parent_gas_limit gasParentHeader gasChildAtDecrease =
      Except.ok () ∧
    validate_against_parent_gas_limit gasParentHeader gasChildBelowDecrease =
      Except.error (ConsensusError.GasLimitInvalidDecrease gasParentHeader.gas_limit
        gasChildBelowDecrease.gas_limit) :=
  c5_gas_limit_boundary gasParentHeader gasChildAtIncrease gasChildAboveIncrease
    gasChildAtDecrease gasChildBelowDecrease (by decide) (by decide) (by decide)
    (by decide) (by decide)

/-- Claim C6: the conversion from the transaction-validity error type into
ConsensusError embeds the value verbatim as the InvalidTransaction variant
and is injective. -/
theorem c6_from_invalid_transaction_lossless (a b : InvalidTransactionError)
    (h : ConsensusError.ofInvalidTransactionError a =
      ConsensusError.ofInvalidTransactionError b) :
    ConsensusError.ofInvalidTransactionError a =
      ConsensusError.InvalidTransaction a ∧ a = b := by
  refine ⟨rfl, ?_⟩
  simpa [ConsensusError.ofInvalidTransactionError] using h

/-- Claim C6 witness: the conversion evaluated at a concrete error code. -/
theorem c6_from_invalid_transaction_lossless_witness :
    ConsensusError.ofInvalidTransactionError ⟨7⟩ =
      ConsensusError.InvalidTransaction ⟨7⟩ ∧
    (⟨7⟩ : InvalidTransactionError) = ⟨7⟩ :=
  c6_from_invalid_transaction_lossless ⟨7⟩ ⟨7⟩ rfl

/-- Claim C7: the blanket shared-reference and shared-handle forwarding
implementations of HeaderValidator, Consensus and FullConsensus produce,
for every operation and every input, exactly the result of the underlying
validator, including the inherited default range algorithm. -/
theorem c7_ref_arc_forwarding (hv : HeaderValidator H)
    (c : Consensus H B Blk E) (fc : FullConsensus H B Blk E R Res)
    (h p : SealedHeader H) (b : B) (blk : Blk) (r : R) (res : Res)
    (hs : List (SealedHeader H)) :
    (hv.refImpl.validate_header h = hv.validate_header h ∧
      hv.refImpl.validate_header_against_parent h p =
        hv.validate_header_against_parent h p ∧
      hv.refImpl.validate_header_range hs = hv.validate_header_range hs ∧
      hv.arcImpl.validate_header h = hv.validate_header h ∧
      hv.arcImpl.validate_header_against_parent h p =
        hv.validate_header_against_parent h p ∧
      hv.arcImpl.validate_header_range hs = hv.validate_header_range hs) ∧
    (c.refImpl.toHeaderValidator.validate_header h =
        c.toHeaderValidator.validate_header h ∧
      c.refImpl.toHeaderValidator.validate_header_against_parent h p =
        c.toHeaderValidator.validate_header_against_parent h p ∧
      c.refImpl.toHeaderValidator.validate_header_range hs =
        c.toHeaderValidator.validate_header_range hs ∧
      c.refImpl.validate_body_against_header b h = c.validate_body_against_header b h ∧
      c.refImpl.validate_block_pre_execution blk = c.validate_block_pre_execution blk ∧
      c.arcImpl.toHeaderValidator.validate_header h =
        c.toHeaderValidator.validate_header h ∧
      c.arcImpl.toHeaderValidator.validate_header_against_parent h p =
        c.toHeaderValidator.validate_header_against_parent h p ∧
      c.arcImpl.toHeaderValidator.validate_header_range hs =
        c.toHeaderValidator.validate_header_range hs ∧
      c.arcImpl.validate_body_against_header b h = c.validate_body_against_header b h ∧
      c.arcImpl.validate_block_pre_execution blk = c.validate_block_pre_execution blk) ∧
    (fc.refImpl.toHeaderValidator.validate_header h =
        fc.toHeaderValidator.validate_header h ∧
      fc.refImpl.toHeaderValidator.validate_header_against_parent h p =
        fc.toHeaderValidator.validate_header_against_parent h p ∧
      fc.refImpl.toHeaderValidator.validate_header_range hs =
        fc.toHeaderValidator.validate_header_range hs ∧
      fc.refImpl.validate_body_against_header b h = fc.validate_body_against_header b h ∧
      fc.refImpl.validate_block_pre_execution blk = fc.validate_block_pre_execution blk ∧
      fc.refImpl.validate_block_post_execution r res =
        fc.validate_block_post_execution r res ∧
      fc.arcImpl.toHeaderValidator.validate_header h =
        fc.toHeaderValidator.validate_header h ∧
      fc.arcImpl.toHeaderValidator.validate_header_against_parent h p =
        fc.toHeaderValidator.validate_header_against_parent h p ∧
      fc.arcImpl.toHeaderValidator.validate_header_range hs =
        fc.toHeaderValidator.validate_header_range hs ∧
      fc.arcImpl.validate_body_against_header b h = fc.validate_body_against_header b h ∧
      fc.arcImpl.validate_block_pre_execution blk = fc.validate_block_pre_execution blk ∧
      fc.arcImpl.validate_block_post_execution r res =
        fc.validate_block_post_execution r res) :=
  ⟨⟨rfl, rfl, rfl, rfl, rfl, rfl⟩,
    ⟨rfl, rfl, rfl, rfl, rfl, rfl, rfl, rfl, rfl, rfl⟩,
    ⟨rfl, rfl, rfl, rfl, rfl, rfl, rfl, rfl, rfl, rfl, rfl, rfl⟩⟩

/-- Claim C8: for every non-empty headers sequence, the default range
algorithm invokes validate_header on the first element unconditionally,
also when that element is the genesis header of block number 0: the first
recorded call is always the standalone check of the first element. -/
theorem c8_first_header_checked_even_for_genesis (v : HeaderValidator Header)
    (h0 : SealedHeader Header) (rest : List (SealedHeader Header))
    (hgenesis : h0.header.number = 0) :
    ((v.validate_header_rangeT (h0 :: rest)).2).head? =
      some (HVCall.standalone h0) := by
  cases hvh : v.validate_header h0 with
  | error e => simp [HeaderValidator.validate_header_rangeT, hvh]
  | ok u =>
    cases u
    simp [HeaderValidator.validate_header_rangeT, hvh]

/-- Claim C8 witness: the range algorithm evaluated on a concrete
single-element list holding the genesis header. -/
theorem c8_first_header_checked_even_for_genesis_witness :
    ((okValidator.validate_header_rangeT [genesisHeader]).2).head? =
      some (HVCall.standalone genesisHeader) :=
  c8_first_header_checked_even_for_genesis okValidator genesisHeader [] rfl

/-- Claim C9: within the default range algorithm, a header after the first
whose standalone check fails is never checked against its parent, and the
returned HeaderConsensusError carries the standalone error: once every
check on the preceding prefix passed, reaching a child whose standalone
check fails ends the run with that error, the recorded calls being those of
the prefix followed by only the standalone check of the child. -/
theorem c9_standalone_before_parent_check (v : HeaderValidator H)
    (h0 : SealedHeader H) (pre rest : List (SealedHeader H))
    (child : SealedHeader H) (e : ConsensusError)
    (hpre : v.validate_header_range (h0 :: pre) = Except.ok ())
    (hchild : v.validate_header child = Except.error e) :
    v.validate_header_rangeT ((h0 :: pre) ++ child :: rest) =
      (Except.error ⟨e, child⟩,
        (v.validate_header_rangeT (h0 :: pre)).2 ++ [HVCall.standalone child]) := by
  cases hvh0 : v.validate_header h0 with
  | error e0 =>
    exfalso
    simp [HeaderValidator.validate_header_range, hvh0] at hpre
  | ok u =>
    cases u
    have hloop : (v.validateRangeLoopT h0 pre).1 = Except.ok () := by
      rw [validateRangeLoopT_fst]
      simpa [HeaderValidator.validate_header_range, hvh0] using hpre
    have happ := validateRangeLoopT_append v h0 pre (child :: rest) hloop
    have hchildT : v.validateRangeLoopT (lastOr h0 pre) (child :: rest) =
        (Except.error ⟨e, child⟩, [HVCall.standalone child]) := by
      simp [HeaderValidator.validateRangeLoopT, hchild]
    simp [HeaderValidator.validate_header_rangeT, hvh0, List.cons_append, happ, hchildT]

/-- Claim C9 witness: a concrete two-header run in which the first header
passes, the second fails its standalone check and is never checked against
its parent. -/
theorem c9_standalone_before_parent_check_witness :
    failAtFiveValidator.validate_header_rangeT ([headerOne] ++ [headerFive]) =
      (Except.error ⟨ConsensusError.BaseFeeMissing, headerFive⟩,
        (failAtFiveValidator.validate_header_rangeT [headerOne]).2 ++
          [HVCall.standalone headerFive]) :=
  c9_standalone_before_parent_check failAtFiveValidator headerOne [] []
    headerFive ConsensusError.BaseFeeMissing rfl rfl

/-- Claim C10: the blanket RpcNodeCore implementation for a
FullNodeComponents value forwards pool, evm_config, network and provider to
the identically named accessors and payload_builder to
payload_builder_handle, exposing exactly the same component values. -/
theorem c10_rpc_node_core_forwarding (t : FullNodeComponents Pool Evm Net Prov PB) :
    (RpcNodeCore.ofFullNodeComponents t).pool = t.pool ∧
    (RpcNodeCore.ofFullNodeComponents t).evm_config = t.evm_config ∧
    (RpcNodeCore.ofFullNodeComponents t).network = t.network ∧
    (RpcNodeCore.ofFullNodeComponents t).provider = t.provider ∧
    (RpcNodeCore.ofFullNodeComponents t).payload_builder = t.payload_builder_handle :=
  ⟨rfl, rfl, rfl, rfl, rfl⟩
